/-
Verification of the session/command protocol core of meshcat-python's
`visualizer.py` (the module `meshcat.visualizer`).

The file shallowly embeds the module: pure helpers (`capture`,
`match_zmq_url`, `match_web_url`) become Lean functions on strings; the
socket-facing methods of `ViewerWindow` become functions producing a trace of
wire events; `Visualizer` becomes a structure pairing a window reference with
a path.  `Path` and the command classes (`SetObject`, `SetTransform`,
`Delete`, `SetAnimation`) live in sibling modules that are not part of the
analysed sources, so they are modelled from the specification, as marked in
their doc comments.
-/
import Mathlib

set_option autoImplicit false

namespace Meshcat

/-- Modelled from the spec: `Path` (module `meshcat.path`, not in the analysed
sources) is an immutable ordered sequence of string segments. -/
abbrev Path := List String

/-- Modelled from the spec: `append(path, segment)` returns a new `Path` whose
segments are the old segments followed by `segment`; the original is
unchanged (pure function). -/
def Path.append (p : Path) (s : String) : Path := p ++ [s]

/-- Modelled from the spec: the wire rendering of a path is its segments
joined by the fixed delimiter `/` (spec section 6, and the concrete example
`meshcat/box` in section 8). -/
def Path.lower (p : Path) : String := String.intercalate "/" p

/-- Opaque geometry payload (geometry encoding is excluded from the spec's
scope and treated as an opaque serializable payload). -/
structure Geometry where
  data : Nat
deriving DecidableEq

/-- Opaque material payload. -/
structure Material where
  data : Nat
deriving DecidableEq

/-- Opaque animation payload. -/
structure Animation where
  data : Nat
deriving DecidableEq

/-- A 4x4 transform matrix, as a row-major list of rows.  `numpy` holds
floats, but the only matrix this file reasons about is the identity, whose
entries are exactly representable, so integer entries are faithful. -/
abbrev Mat4 := List (List Int)

/-- Model of `np.eye(4)`: the 4x4 identity matrix, the default value of the `matrix`
parameter of `Visualizer.set_transform` (visualizer.py line 176). -/
def eye4 : Mat4 := [[1,0,0,0],[0,1,0,0],[0,0,1,0],[0,0,0,1]]

/-- Decision procedure, independent of `eye4`'s definition, for whether
`m` is the 4x4 identity matrix. -/
def isIdentity4 (m : Mat4) : Bool :=
  (m.length == 4) &&
    (List.range 4).all fun i =>
      ((m.getD i []).length == 4) &&
        (List.range 4).all fun j =>
          (m.getD i []).getD j 0 == (if i == j then (1 : Int) else 0)

/-- Modelled from the spec: the command variants (module `meshcat.commands`,
not in the analysed sources).  Spec section 3 gives the discriminated union
`SetObject(geometry, optional material, target Path)`,
`SetTransform(matrix, target Path)`, `Delete(target Path)`,
`SetAnimation(animation data, play flag, repetition count)` — note that
`SetAnimation` carries no target Path in the data model, matching its call
site at visualizer.py line 180, which passes no path. -/
inductive Command
  | setObject (geometry : Geometry) (material : Option Material) (path : Path)
  | setTransform (matrix : Mat4) (path : Path)
  | delete (path : Path)
  | setAnimation (animation : Animation) (play : Bool) (repetitions : Nat)
deriving DecidableEq

/-- The kind tag of a command, used verbatim as the first wire framing field
(spec section 4.2; the concrete tag `set_transform` appears in section 8). -/
def Command.kind : Command → String
  | .setObject _ _ _ => "set_object"
  | .setTransform _ _ => "set_transform"
  | .delete _ => "delete"
  | .setAnimation _ _ _ => "set_animation"

/-- The target path of a command.  `SetAnimation` has no target Path in the
spec's data model; its lowered form carries the empty path, rendering to the
empty string on the wire. -/
def Command.targetPath : Command → Path
  | .setObject _ _ p => p
  | .setTransform _ p => p
  | .delete p => p
  | .setAnimation _ _ _ => []

/-- Values appearing in the lowered (serializable) form of a command, beyond
the kind and path fields.  Opaque payloads stay opaque. -/
inductive Val
  | str (s : String)
  | boolV (b : Bool)
  | natV (n : Nat)
  | matrixV (m : List (List Int))
  | payload (n : Nat)
deriving DecidableEq

/-- Modelled from the spec: the lowered form of a command — the compact
self-describing mapping handed to the binary encoder.  Spec section 4.2
guarantees the kind tag and the path are always present, so they are fields;
`extra` holds the kind-specific fields as a key/value list. -/
structure LoweredCommand where
  type : String
  path : String
  extra : List (String × Val)
deriving DecidableEq

/-- The lowered command as the full key/value mapping that is binary-encoded,
including the kind and path entries. -/
def LoweredCommand.toDict (d : LoweredCommand) : List (String × Val) :=
  ("type", Val.str d.type) :: ("path", Val.str d.path) :: d.extra

/-- Modelled from the spec: `Command.lower` builds the serializable mapping
for each command kind — kind tag, path, then the kind-specific fields
(spec section 4.2: `encode()` encodes all fields including kind and path). -/
def Command.lower : Command → LoweredCommand
  | .setObject g m p =>
      ⟨"set_object", Path.lower p,
        ("object", Val.payload g.data) ::
          (match m with
            | some mm => [("material", Val.payload mm.data)]
            | none => [])⟩
  | .setTransform mat p =>
      ⟨"set_transform", Path.lower p, [("matrix", Val.matrixV mat)]⟩
  | .delete p =>
      ⟨"delete", Path.lower p, []⟩
  | .setAnimation a play reps =>
      ⟨"set_animation", Path.lower [],
        [("animations", Val.payload a.data),
         ("play", Val.boolV play),
         ("repetitions", Val.natV reps)]⟩

/-- A single wire frame: either the UTF-8 bytes of a string, or the binary
(msgpack) encoding of a lowered command.  The binary encoder `umsgpack.packb`
is an external collaborator; representing its output by the encoded value
keeps the encoding injective without committing to a byte layout. -/
inductive Frame
  | utf8 (s : String)
  | packed (d : LoweredCommand)
deriving DecidableEq

/-- Decoding a received frame as UTF-8, as `recv().decode("utf-8")` does:
defined on text frames, an error otherwise. -/
def Frame.decodeUtf8 : Frame → Except String String
  | .utf8 s => Except.ok s
  | .packed _ => Except.error "UnicodeDecodeError"

/-- An observable action of the ZMQ REQ socket. -/
inductive WireEvent
  | connect (endpoint : String)
  | send (f : Frame)
  | sendMultipart (fs : List Frame)
  | recv
deriving DecidableEq

/-- Matching a literal pattern head against the start of a string (the `^`
anchor of `re.match`): returns the remaining characters after the head, or
`none` when the string does not start with the head. -/
def matchHead : List Char → List Char → Option (List Char)
  | [], s => some s
  | _ :: _, [] => none
  | h :: hs, c :: cs => if c = h then matchHead hs cs else none

/-- The regex matches used by the handshake are exactly of the shape
`^head(.*)$` for a literal `head`.  `re.match` of such a pattern against `s`
succeeds iff `s` starts with `head` and the rest of `s` contains no newline,
except possibly a single newline at its very end (in Python `.` does not
match a newline and `$` matches at the end of the string or just before a
trailing newline); the capture group is the rest up to that point. -/
def reMatchCap (head s : String) : Option String :=
  match matchHead head.data s.data with
  | none => none
  | some rest =>
      let g := rest.takeWhile (fun c => c ≠ '\n')
      let t := rest.drop g.length
      if t = [] ∨ t = ['\n'] then some (String.mk g) else none

/-- The ASCII whitespace characters stripped by Python's `bytes.strip`. -/
def isSpaceChar (c : Char) : Bool :=
  c = ' ' ∨ c = '\t' ∨ c = '\n' ∨ c = '\r' ∨ c = '\x0b' ∨ c = '\x0c'

/-- Model of `bytes.strip` on the characters of a line: drop ASCII whitespace from
both ends. -/
def stripChars (l : List Char) : List Char :=
  ((l.dropWhile isSpaceChar).reverse.dropWhile isSpaceChar).reverse

/-- Model of `line.strip()` as applied to each handshake line before matching
(visualizer.py lines 48-49). -/
def pyStrip (s : String) : String := String.mk (stripChars s.data)

/-- Model of `capture(pattern, s)` (visualizer.py lines 20-25) for the two patterns in
use, which are `^head(.*)$` for a literal `head`: returns the first capture
group, or raises `ValueError` when the pattern does not match. -/
def captureErrMsg (head s : String) : String :=
  "Could not match " ++ s ++ " with pattern ^" ++ head ++ "(.*)$"

def capture (head s : String) : Except String String :=
  match reMatchCap head s with
  | some g => Except.ok g
  | none => Except.error (captureErrMsg head s)

/-- Model of `match_zmq_url` (visualizer.py lines 27-28): capture against
`^zmq_url=(.*)$`. -/
def match_zmq_url (line : String) : Except String String :=
  capture "zmq_url=" line

/-- Model of `match_web_url` (visualizer.py lines 30-31): capture against
`^web_url=(.*)$`. -/
def match_web_url (line : String) : Except String String :=
  capture "web_url=" line

/-- The window state established by `ViewerWindow.__init__`: whether this
window owns a spawned server process (`server_proc is not None`), the ZMQ
endpoint, and the resolved web URL. -/
structure WindowState where
  ownsServer : Bool
  zmq_url : String
  web_url : String
deriving DecidableEq

/-- Model of `ViewerWindow.connect_zmq` (visualizer.py lines 75-77): create a REQ
socket and connect it to `self.zmq_url`.  Its observable wire action is one
connect event. -/
def ViewerWindow.connect_zmq (zmq_url : String) : List WireEvent :=
  [WireEvent.connect zmq_url]

/-- Model of `ViewerWindow.request_web_url` (visualizer.py lines 79-82): send the bare
single-frame request `b"url"`, receive one reply frame and decode it as
UTF-8.  Parameterised by the reply frame the peer returns. -/
def ViewerWindow.request_web_url (reply : Frame) :
    List WireEvent × Except String String :=
  ([WireEvent.send (Frame.utf8 "url"), WireEvent.recv], Frame.decodeUtf8 reply)

/-- Model of `ViewerWindow.wait` (visualizer.py lines 88-90): send the bare
single-frame request `b"wait"`, receive one reply frame and decode it as
UTF-8. -/
def ViewerWindow.wait (reply : Frame) :
    List WireEvent × Except String String :=
  ([WireEvent.send (Frame.utf8 "wait"), WireEvent.recv], Frame.decodeUtf8 reply)

/-- Model of `ViewerWindow.get_scene` (visualizer.py lines 101-105): send the bare
single-frame request `b"get_scene"`, receive one reply frame and decode it
as UTF-8. -/
def ViewerWindow.get_scene (reply : Frame) :
    List WireEvent × Except String String :=
  ([WireEvent.send (Frame.utf8 "get_scene"), WireEvent.recv],
    Frame.decodeUtf8 reply)

/-- Model of `ViewerWindow.send` (visualizer.py lines 92-99): lower the command, send
one multipart message whose parts are the `type` field as UTF-8, the `path`
field as UTF-8, and the binary encoding of the whole lowered command, then
receive exactly one (discarded) reply. -/
def ViewerWindow.sendEvents (command : Command) : List WireEvent :=
  let cmd_data := command.lower
  [WireEvent.sendMultipart
      [Frame.utf8 cmd_data.type, Frame.utf8 cmd_data.path,
        Frame.packed cmd_data],
    WireEvent.recv]

/-- The spawn-mode branch of `ViewerWindow.__init__` (visualizer.py lines
38-55 and 61): read one line of the subprocess's stdout, strip it and match
`^zmq_url=(.*)$`, read a second line, strip it and match `^web_url=(.*)$`
(`readline` at end of file yields the empty string), then connect the
socket.  An unmatched line raises before anything later runs, so no socket
is created in that case — the error short-circuits with no wire events. -/
def ViewerWindow.initSpawn (stdoutLines : List String) :
    Except String (WindowState × List WireEvent) :=
  match match_zmq_url (pyStrip (stdoutLines.getD 0 "")) with
  | .error e => .error e
  | .ok zmq =>
      match match_web_url (pyStrip (stdoutLines.getD 1 "")) with
      | .error e => .error e
      | .ok web => .ok (⟨true, zmq, web⟩, ViewerWindow.connect_zmq zmq)

/-- The attach-mode branch of `ViewerWindow.__init__` (visualizer.py lines
57-68): with no server process, connect to the caller-supplied endpoint,
request the web URL over the socket, then unconditionally reconnect once.
Parameterised by the reply frame of the URL request. -/
def ViewerWindow.initAttach (zmq_url : String) (urlReply : Frame) :
    Except String (WindowState × List WireEvent) :=
  let ev₁ := ViewerWindow.connect_zmq zmq_url
  let r := ViewerWindow.request_web_url urlReply
  match r.2 with
  | .error e => .error e
  | .ok web =>
      .ok (⟨false, zmq_url, web⟩,
        ev₁ ++ r.1 ++ ViewerWindow.connect_zmq zmq_url)

/-- The attribute names an initialised `ViewerWindow` object carries: the
class attribute (line 35), the methods defined in the class body (lines 37,
75, 79, 84, 88, 92, 101), and the instance attributes assigned in
`__init__` (lines 47-49, 58-64, 76). -/
def ViewerWindow.attrNames : List String :=
  ["context", "__init__", "connect_zmq", "request_web_url", "open", "wait",
    "send", "get_scene",
    "server_proc", "zmq_url", "web_url", "zmq_socket"]

/-- Outcome of a Python attribute access. -/
inductive PyAccess
  | ok
  | attributeError (attr : String)
deriving DecidableEq

/-- Attribute lookup on an object with the given attribute names: missing
attributes raise `AttributeError`. -/
def getattrOn (attrs : List String) (name : String) : PyAccess :=
  if name ∈ attrs then PyAccess.ok else PyAccess.attributeError name

/-- A `Visualizer` is a scoped view: a reference to a shared window (modelled
by an identifier) together with a path (visualizer.py lines 112-113,
`__slots__ = ["window", "path"]`). -/
structure Visualizer where
  window : Nat
  path : Path
deriving DecidableEq

/-- The public constructor `Visualizer.__init__` (visualizer.py lines
115-120): establishes or adopts a window and sets
`self.path = Path(("meshcat",))`. -/
def Visualizer.mkRoot (window : Nat) : Visualizer :=
  ⟨window, ["meshcat"]⟩

/-- Model of `Visualizer.view_into` (visualizer.py lines 122-126): a visualizer over
the given window whose path is overwritten with the given path. -/
def Visualizer.view_into (window : Nat) (path : Path) : Visualizer :=
  ⟨window, path⟩

/-- Model of `Visualizer.__getitem__` (visualizer.py lines 170-171):
`view_into(self.window, self.path.append(path))`. -/
def Visualizer.getItem (v : Visualizer) (s : String) : Visualizer :=
  Visualizer.view_into v.window (v.path.append s)

/-- Repeated child access, innermost first: `v[s₁][s₂]...`. -/
def Visualizer.childMany (v : Visualizer) : List String → Visualizer
  | [] => v
  | s :: rest => (v.getItem s).childMany rest

/-- Model of `Visualizer.set_object` (visualizer.py lines 173-174):
`self.window.send(SetObject(geometry, material, self.path))`. -/
def Visualizer.set_object (v : Visualizer) (geometry : Geometry)
    (material : Option Material) : List WireEvent :=
  ViewerWindow.sendEvents (Command.setObject geometry material v.path)

/-- Model of `Visualizer.set_transform` (visualizer.py lines 176-177):
`self.window.send(SetTransform(matrix, self.path))`. -/
def Visualizer.set_transform (v : Visualizer) (matrix : Mat4) :
    List WireEvent :=
  ViewerWindow.sendEvents (Command.setTransform matrix v.path)

/-- Model of `Visualizer.set_transform` called with no argument: the `matrix`
parameter defaults to `np.eye(4)` (visualizer.py line 176). -/
def Visualizer.set_transform_default (v : Visualizer) : List WireEvent :=
  v.set_transform eye4

/-- Model of `Visualizer.set_animation` (visualizer.py lines 179-180):
`self.window.send(SetAnimation(animation, play=play,
repetitions=repetitions))` — note no path is passed. -/
def Visualizer.set_animation (_v : Visualizer) (animation : Animation)
    (play : Bool) (repetitions : Nat) : List WireEvent :=
  ViewerWindow.sendEvents (Command.setAnimation animation play repetitions)

/-- Model of `Visualizer.delete` (visualizer.py lines 182-183):
`self.window.send(Delete(self.path))`. -/
def Visualizer.delete (v : Visualizer) : List WireEvent :=
  ViewerWindow.sendEvents (Command.delete v.path)

/-- Model of `Visualizer.close` (visualizer.py lines 185-186) performs the attribute
access `self.window.close` on a `ViewerWindow` object and calls it. -/
def Visualizer.closeAccess : PyAccess :=
  getattrOn ViewerWindow.attrNames "close"

/-- The Python values passed positionally to `ViewerWindow` by the
`__main__` block. -/
inductive PyVal
  | noneV
  | strV (s : String)
  | boolV (b : Bool)
  | listV (xs : List String)
deriving DecidableEq

/-- Argument parsing of the `__main__` block (visualizer.py lines 204-210):
with more than one entry in `sys.argv`, the endpoint is `sys.argv[1]` and
the trailing arguments are `sys.argv[2:]`; otherwise the endpoint is `None`
and the trailing arguments are empty. -/
def parseMainArgs : List String → Option String × List String
  | _prog :: u :: rest => (some u, rest)
  | _ => (none, [])

/-- The number of parameters of `ViewerWindow.__init__` besides `self`
(visualizer.py line 37: `zmq_url`, `start_server`, `args`), none of which
has a default and with no varargs. -/
def viewerWindowInitArity : Nat := 3

/-- The positional arguments of the constructor call at visualizer.py line
212: `ViewerWindow(zmq_url, zmq_url is None, True, args)`. -/
def mainWindowCallArgs (zmq_url : Option String) (args : List String) :
    List PyVal :=
  [(match zmq_url with
     | some u => PyVal.strV u
     | none => PyVal.noneV),
    PyVal.boolV zmq_url.isNone,
    PyVal.boolV true,
    PyVal.listV args]

/-- The `__main__` block up to and including the `ViewerWindow` call: parse
`sys.argv`, then call the constructor.  A Python call whose positional
argument count differs from the parameter count (no defaults, no varargs)
raises `TypeError`; on a successful call the idle loop would follow. -/
def runMain (argv : List String) : Except String (List PyVal) :=
  let p := parseMainArgs argv
  let callArgs := mainWindowCallArgs p.1 p.2
  if callArgs.length = viewerWindowInitArity then Except.ok callArgs
  else Except.error "TypeError"

/-! ### Helper lemmas -/

theorem matchHead_append (h l : List Char) : matchHead h (h ++ l) = some l := by
  induction h with
  | nil => rfl
  | cons c cs ih => simp [matchHead, ih]

theorem childMany_window (segs : List String) :
    ∀ v : Visualizer, (v.childMany segs).window = v.window := by
  induction segs with
  | nil => intro v; rfl
  | cons s rest ih =>
      intro v
      simpa [Visualizer.childMany, Visualizer.getItem, Visualizer.view_into]
        using ih (v.getItem s)

theorem childMany_path (segs : List String) :
    ∀ v : Visualizer, (v.childMany segs).path = v.path ++ segs := by
  induction segs with
  | nil => intro v; simp [Visualizer.childMany]
  | cons s rest ih =>
      intro v
      simp [Visualizer.childMany, ih, Visualizer.getItem, Visualizer.view_into,
        Path.append]

theorem capture_append (head u : String) (h : ∀ c ∈ u.data, c ≠ '\n') :
    capture head (head ++ u) = Except.ok u := by
  obtain ⟨ud⟩ := u
  unfold capture reMatchCap
  rw [String.data_append, matchHead_append]
  have hg : ud.takeWhile (fun c => !decide (c = '\n')) = ud :=
    List.takeWhile_eq_self_iff.mpr (by simpa using h)
  simp [hg]

/-! ### Claim theorems -/

/-- C1, counterexample: the command built by `set_animation` on the view at
path `meshcat/robot` does not carry that view's path — `SetAnimation` takes
no path argument (visualizer.py line 180) and is lowered with the empty
path, so the claim that all four mutation operations address the calling
view's own path is false. -/
theorem c1_set_animation_ignores_view_path_cex :
    Visualizer.set_animation ⟨0, ["meshcat", "robot"]⟩ ⟨0⟩ true 1 =
      ViewerWindow.sendEvents (Command.setAnimation ⟨0⟩ true 1) ∧
    (Command.setAnimation ⟨0⟩ true 1).targetPath ≠
      (⟨0, ["meshcat", "robot"]⟩ : Visualizer).path ∧
    (Command.setAnimation ⟨0⟩ true 1).lower.path ≠
      Path.lower (⟨0, ["meshcat", "robot"]⟩ : Visualizer).path :=
  ⟨rfl, by decide, by decide⟩

/-- C1, amended: `set_object`, `set_transform` and `delete` each construct
their command addressed to the calling view's own path and forward it to the
window's send; `set_animation` also forwards its command to the window's
send, but that command carries no target path (it is lowered with the empty
path), regardless of the view's path. -/
theorem c1_mutation_commands_path_addressing (v : Visualizer) (g : Geometry)
    (m : Option Material) (mat : Mat4) (a : Animation) (play : Bool)
    (reps : Nat) :
    v.set_object g m = ViewerWindow.sendEvents (Command.setObject g m v.path) ∧
    v.set_transform mat =
      ViewerWindow.sendEvents (Command.setTransform mat v.path) ∧
    v.delete = ViewerWindow.sendEvents (Command.delete v.path) ∧
    v.set_animation a play reps =
      ViewerWindow.sendEvents (Command.setAnimation a play reps) ∧
    (Command.setObject g m v.path).targetPath = v.path ∧
    (Command.setTransform mat v.path).targetPath = v.path ∧
    (Command.delete v.path).targetPath = v.path ∧
    (Command.setAnimation a play reps).targetPath = [] :=
  ⟨rfl, rfl, rfl, rfl, rfl, rfl, rfl, rfl⟩

/-- C2: `Visualizer.close` (visualizer.py line 186) accesses `close` on the
`ViewerWindow` object, but the `ViewerWindow` class defines no such
attribute, so the call raises `AttributeError` instead of releasing the
session and terminating an owned process. -/
theorem c2_close_raises_attribute_error :
    Visualizer.closeAccess = PyAccess.attributeError "close" ∧
    "close" ∉ ViewerWindow.attrNames :=
  ⟨by decide, by decide⟩

/-- C3: for every command line, the `__main__` block's constructor call
`ViewerWindow(zmq_url, zmq_url is None, True, args)` (visualizer.py line
212) passes four positional arguments to the three-parameter
`ViewerWindow.__init__` (line 37), so it raises `TypeError` and never
establishes a window. -/
theorem c3_main_window_call_type_error (argv : List String) :
    runMain argv = Except.error "TypeError" := by
  simp [runMain, mainWindowCallArgs, viewerWindowInitArity]

/-- C4: in spawn mode the window consumes exactly the first two stdout
lines; a line of the form `zmq_url=<endpoint>` (resp. `web_url=<url>`)
without newlines matches its pattern with the endpoint (resp. url) as the
capture group; when the stripped first (resp. second) line does not start
with the `zmq_url=` (resp. `web_url=`) pattern head its match fails with
the handshake error; a match failure of either line aborts construction
with that error — in particular no socket is connected — and when both
lines match, construction succeeds with the two captured values and its
only wire action is the socket connect. -/
theorem c4_spawn_handshake (l₁ l₂ : String) (rest : List String)
    (u e : String) :
    (ViewerWindow.initSpawn (l₁ :: l₂ :: rest) =
      ViewerWindow.initSpawn [l₁, l₂]) ∧
    ((∀ c ∈ u.data, c ≠ '\n') →
      match_zmq_url ("zmq_url=" ++ u) = Except.ok u ∧
      match_web_url ("web_url=" ++ u) = Except.ok u) ∧
    (matchHead "zmq_url=".data (pyStrip l₁).data = none →
      match_zmq_url (pyStrip l₁) =
        Except.error (captureErrMsg "zmq_url=" (pyStrip l₁))) ∧
    (matchHead "web_url=".data (pyStrip l₂).data = none →
      match_web_url (pyStrip l₂) =
        Except.error (captureErrMsg "web_url=" (pyStrip l₂))) ∧
    (match_zmq_url (pyStrip l₁) = Except.error e →
      ViewerWindow.initSpawn (l₁ :: l₂ :: rest) = Except.error e) ∧
    (∀ z, match_zmq_url (pyStrip l₁) = Except.ok z →
      match_web_url (pyStrip l₂) = Except.error e →
      ViewerWindow.initSpawn (l₁ :: l₂ :: rest) = Except.error e) ∧
    (∀ z w, match_zmq_url (pyStrip l₁) = Except.ok z →
      match_web_url (pyStrip l₂) = Except.ok w →
      ViewerWindow.initSpawn (l₁ :: l₂ :: rest) =
        Except.ok (⟨true, z, w⟩, [WireEvent.connect z])) := by
  refine ⟨rfl, ?_, ?_, ?_, ?_, ?_, ?_⟩
  · intro h
    exact ⟨capture_append "zmq_url=" u h, capture_append "web_url=" u h⟩
  · intro h
    unfold match_zmq_url capture reMatchCap
    rw [h]
  · intro h
    unfold match_web_url capture reMatchCap
    rw [h]
  · intro h
    unfold ViewerWindow.initSpawn
    rw [show (l₁ :: l₂ :: rest).getD 0 "" = l₁ from rfl, h]
  · intro z h₁ h₂
    unfold ViewerWindow.initSpawn
    rw [show (l₁ :: l₂ :: rest).getD 0 "" = l₁ from rfl,
      show (l₁ :: l₂ :: rest).getD 1 "" = l₂ from rfl, h₁, h₂]
  · intro z w h₁ h₂
    unfold ViewerWindow.initSpawn
    rw [show (l₁ :: l₂ :: rest).getD 0 "" = l₁ from rfl,
      show (l₁ :: l₂ :: rest).getD 1 "" = l₂ from rfl, h₁, h₂]
    rfl

/-- C4 witness: the concrete handshake of the spec's section 8, plus a
garbage first line and a garbage second line each failing their match and
aborting construction. -/
theorem c4_spawn_handshake_witness :
    (∀ c ∈ ("tcp://127.0.0.1:9000" : String).data, c ≠ '\n') ∧
    match_zmq_url (pyStrip "zmq_url=tcp://127.0.0.1:9000") =
      Except.ok "tcp://127.0.0.1:9000" ∧
    match_web_url (pyStrip "web_url=http://127.0.0.1:8080") =
      Except.ok "http://127.0.0.1:8080" ∧
    ViewerWindow.initSpawn
        ["zmq_url=tcp://127.0.0.1:9000", "web_url=http://127.0.0.1:8080"] =
      Except.ok (⟨true, "tcp://127.0.0.1:9000", "http://127.0.0.1:8080"⟩,
        [WireEvent.connect "tcp://127.0.0.1:9000"]) ∧
    match_zmq_url (pyStrip "garbage") =
      Except.error (captureErrMsg "zmq_url=" (pyStrip "garbage")) ∧
    ViewerWindow.initSpawn ["garbage", "web_url=http://127.0.0.1:8080"] =
      Except.error
        ("Could not match garbage with pattern ^zmq_url=(.*)$") ∧
    match_web_url (pyStrip "garbage") =
      Except.error (captureErrMsg "web_url=" (pyStrip "garbage")) ∧
    ViewerWindow.initSpawn ["zmq_url=tcp://127.0.0.1:9000", "garbage"] =
      Except.error
        ("Could not match garbage with pattern ^web_url=(.*)$") := by
  have h₁ := c4_spawn_handshake "zmq_url=tcp://127.0.0.1:9000"
    "web_url=http://127.0.0.1:8080" [] "tcp://127.0.0.1:9000" "x"
  have h₂ := c4_spawn_handshake "garbage" "web_url=http://127.0.0.1:8080" []
    "u" ("Could not match garbage with pattern ^zmq_url=(.*)$")
  have h₃ := c4_spawn_handshake "zmq_url=tcp://127.0.0.1:9000" "garbage" []
    "u" ("Could not match garbage with pattern ^web_url=(.*)$")
  refine ⟨by decide, rfl, rfl, ?_, ?_, ?_, ?_, ?_⟩
  · exact h₁.2.2.2.2.2.2 "tcp://127.0.0.1:9000" "http://127.0.0.1:8080"
      rfl rfl
  · exact h₂.2.2.1 rfl
  · exact h₂.2.2.2.2.1 rfl
  · exact h₃.2.2.2.1 rfl
  · exact h₃.2.2.2.2.2.1 "tcp://127.0.0.1:9000" rfl rfl

/-- C6: in attach mode, window construction connects the socket to the
caller-supplied endpoint, issues the url-discovery request and records the
returned public URL, then unconditionally reconnects exactly once; no
command is sent during construction. -/
theorem c6_attach_init_reconnects_once (u : String) (reply : Frame)
    (web : String) (h : Frame.decodeUtf8 reply = Except.ok web) :
    ViewerWindow.initAttach u reply =
      Except.ok (⟨false, u, web⟩,
        [WireEvent.connect u, WireEvent.send (Frame.utf8 "url"),
          WireEvent.recv, WireEvent.connect u]) := by
  cases reply with
  | utf8 s =>
      simp only [Frame.decodeUtf8, Except.ok.injEq] at h
      subst h
      rfl
  | packed d => simp [Frame.decodeUtf8] at h

/-- C6 witness: attaching to a concrete endpoint with a concrete URL
reply. -/
theorem c6_attach_init_reconnects_once_witness :
    ViewerWindow.initAttach "tcp://127.0.0.1:6000"
        (Frame.utf8 "http://127.0.0.1:7000") =
      Except.ok (⟨false, "tcp://127.0.0.1:6000", "http://127.0.0.1:7000"⟩,
        [WireEvent.connect "tcp://127.0.0.1:6000",
          WireEvent.send (Frame.utf8 "url"), WireEvent.recv,
          WireEvent.connect "tcp://127.0.0.1:6000"]) :=
  c6_attach_init_reconnects_once "tcp://127.0.0.1:6000"
    (Frame.utf8 "http://127.0.0.1:7000") "http://127.0.0.1:7000" rfl

/-- C5: `ViewerWindow.send` transmits exactly one multipart request whose
parts are, in order, the command's kind tag as UTF-8, the target path
rendered as a `/`-joined UTF-8 string, and the binary-encoded full lowered
command as the body — whose mapping contains the kind and path entries —
and then receives exactly one discarded reply. -/
theorem c5_window_send_framing (c : Command) :
    ViewerWindow.sendEvents c =
      [WireEvent.sendMultipart
          [Frame.utf8 c.lower.type, Frame.utf8 c.lower.path,
            Frame.packed c.lower],
        WireEvent.recv] ∧
    c.lower.type = c.kind ∧
    c.lower.path = Path.lower c.targetPath ∧
    c.lower.toDict.lookup "type" = some (Val.str c.kind) ∧
    c.lower.toDict.lookup "path" = some (Val.str (Path.lower c.targetPath)) := by
  refine ⟨rfl, ?_, ?_, ?_, ?_⟩ <;> cases c <;> rfl

/-- C7: child views obtained from the same view under distinct segments
share that view's window and have paths equal to the parent's path extended
by their respective segments, hence distinct paths; the construction is
pure, so the parent's own path is unchanged. -/
theorem c7_child_views_distinct_paths (v : Visualizer) (a b : String)
    (hab : a ≠ b) :
    (v.getItem a).window = v.window ∧
    (v.getItem b).window = v.window ∧
    (v.getItem a).path = v.path.append a ∧
    (v.getItem b).path = v.path.append b ∧
    (v.getItem a).path ≠ (v.getItem b).path := by
  refine ⟨rfl, rfl, rfl, rfl, ?_⟩
  simpa [Visualizer.getItem, Visualizer.view_into, Path.append] using hab

/-- C7 witness: concrete child views under `a` and `b` of a root view. -/
theorem c7_child_views_distinct_paths_witness :
    ("a" : String) ≠ "b" ∧
    ((Visualizer.mkRoot 0).getItem "a").path ≠
      ((Visualizer.mkRoot 0).getItem "b").path :=
  ⟨by decide,
    (c7_child_views_distinct_paths (Visualizer.mkRoot 0) "a" "b"
        (by decide)).2.2.2.2⟩

/-- C8: the url-discovery, wait and get-scene operations each send the bare
single-frame request `url`, `wait`, `get_scene` respectively, receive a
single reply frame, decode it as UTF-8 and return the decoded string. -/
theorem c8_bare_requests (s : String) :
    ViewerWindow.request_web_url (Frame.utf8 s) =
      ([WireEvent.send (Frame.utf8 "url"), WireEvent.recv], Except.ok s) ∧
    ViewerWindow.wait (Frame.utf8 s) =
      ([WireEvent.send (Frame.utf8 "wait"), WireEvent.recv], Except.ok s) ∧
    ViewerWindow.get_scene (Frame.utf8 s) =
      ([WireEvent.send (Frame.utf8 "get_scene"), WireEvent.recv],
        Except.ok s) :=
  ⟨rfl, rfl, rfl⟩

/-- C9: a visualizer built by the public constructor starts at the
single-segment path `meshcat`, and every view derived from it by repeated
child access has a path whose first segment is `meshcat` (all view
operations are pure, so no operation changes a view's path). -/
theorem c9_base_path_meshcat_invariant (w : Nat) (segs : List String) :
    (Visualizer.mkRoot w).path = ["meshcat"] ∧
    ((Visualizer.mkRoot w).childMany segs).path = "meshcat" :: segs ∧
    ((Visualizer.mkRoot w).childMany segs).path.head? = some "meshcat" ∧
    ((Visualizer.mkRoot w).childMany segs).window = w := by
  have hp := childMany_path segs (Visualizer.mkRoot w)
  have hw := childMany_window segs (Visualizer.mkRoot w)
  refine ⟨rfl, ?_, ?_, hw⟩ <;> rw [hp] <;> rfl

/-- C10: `set_transform` called with no matrix argument sends a
`set_transform` command whose matrix is the 4x4 identity (`np.eye(4)`),
addressed to the calling view's path. -/
theorem c10_set_transform_default_identity (v : Visualizer) :
    v.set_transform_default =
      ViewerWindow.sendEvents (Command.setTransform eye4 v.path) ∧
    (Command.setTransform eye4 v.path).lower.type = "set_transform" ∧
    (Command.setTransform eye4 v.path).lower.path = Path.lower v.path ∧
    (Command.setTransform eye4 v.path).lower.toDict.lookup "matrix" =
      some (Val.matrixV eye4) ∧
    isIdentity4 eye4 = true :=
  ⟨rfl, rfl, rfl, rfl, by decide⟩

end Meshcat
